import Mathlib

/-
Verification of the TaskFlow CRUD backend (src/main.py).
The MongoDB collection is modelled as a list of task documents; an
ObjectId is modelled as a natural number below 16 ^ 24 whose string form
is its 24-digit lowercase hexadecimal rendering.  Each HTTP handler is a
pure function from the store (and the already-validated request payload,
plus the current clock reading as a string) to the new store and either
an error or the serialized response.
-/

/-! ## ObjectId: hexadecimal string form and structural validity -/

/-- One hexadecimal digit (0..15) as a lowercase character. -/
def hexDigitChar (n : Nat) : Char :=
  if n < 10 then Char.ofNat (48 + n) else Char.ofNat (87 + n)

/-- Numeric value of a hexadecimal digit character. -/
def hexDigitVal (c : Char) : Nat :=
  if 97 ≤ c.toNat then c.toNat - 87
  else if 65 ≤ c.toNat then c.toNat - 55
  else c.toNat - 48

/-- Whether a character is a hexadecimal digit (0-9, a-f, A-F). -/
def isHexChar (c : Char) : Bool :=
  (48 ≤ c.toNat && c.toNat ≤ 57) || (97 ≤ c.toNat && c.toNat ≤ 102) ||
    (65 ≤ c.toNat && c.toNat ≤ 70)

/-- `ObjectId.is_valid` for strings: exactly 24 hexadecimal characters. -/
def isValidObjectId (s : String) : Bool :=
  s.length == 24 && s.data.all isHexChar

/-- Big-endian hexadecimal digit list of `n`, padded to width `w`
(accumulator form). -/
def toHexAux : Nat → Nat → List Char → List Char
  | 0, _, acc => acc
  | w + 1, n, acc => toHexAux w (n / 16) (hexDigitChar (n % 16) :: acc)

/-- String form of an ObjectId: 24 lowercase hexadecimal digits. -/
def oidToString (n : Nat) : String :=
  String.mk (toHexAux 24 n [])

/-- Parse a (valid) ObjectId string back to its numeric value. -/
def parseOid (s : String) : Nat :=
  s.data.foldl (fun a c => a * 16 + hexDigitVal c) 0

/-! ## Data model -/

/-- A task document as stored in the `tasks` collection. -/
structure TaskDoc where
  oid : Nat
  title : String
  description : Option String
  deadline : Option String
  status : String
  created_at : String
  last_updated : String
deriving Repr, DecidableEq

/-- The collection of task documents, in insertion order. -/
abbrev Store := List TaskDoc

/-- The serialized task representation produced by `task_helper`:
the seven externally visible fields. -/
structure TaskOut where
  id : String
  title : String
  description : Option String
  deadline : Option String
  status : String
  created_at : String
  last_updated : String
deriving Repr, DecidableEq

/-- Serialize a stored document for a response (`task_helper` in the
source): the `_id` becomes its string form, all other fields are copied. -/
def task_helper (task : TaskDoc) : TaskOut :=
  { id := oidToString task.oid
    title := task.title
    description := task.description
    deadline := task.deadline
    status := task.status
    created_at := task.created_at
    last_updated := task.last_updated }

/-- Errors raised by the handlers via `HTTPException`. -/
inductive ApiError where
  | invalidId
  | noFields
  | notFound
deriving Repr, DecidableEq

/-- HTTP status code carried by each error. -/
def ApiError.statusCode : ApiError → Nat
  | .invalidId => 400
  | .noFields => 400
  | .notFound => 404

/-! ## Validation (the pydantic models) -/

/-- The status pattern of `TaskBase` and `TaskUpdate`:
`^(done|pending|not-done|dropped)$`. -/
def validStatus (s : String) : Bool :=
  s == "done" || s == "pending" || s == "not-done" || s == "dropped"

/-- A raw creation payload before validation: `none` marks an absent
field. -/
structure RawCreatePayload where
  title : Option String
  description : Option String
  deadline : Option String
  status : Option String
deriving Repr, DecidableEq

/-- A creation payload accepted by the `TaskCreate` model: `title`
validated, `status` defaulted. -/
structure TaskCreate where
  title : String
  description : Option String
  deadline : Option String
  status : String
deriving Repr, DecidableEq

/-- Validation of a creation payload by the `TaskCreate` pydantic model:
`title` is required with length 1..200, `status` defaults to
`"not-done"` and must match the status pattern when supplied. -/
def validateCreate (p : RawCreatePayload) : Option TaskCreate :=
  match p.title with
  | none => none
  | some t =>
    if 1 ≤ t.length && t.length ≤ 200 then
      let st := p.status.getD "not-done"
      if validStatus st then
        some { title := t, description := p.description,
               deadline := p.deadline, status := st }
      else none
    else none

/-- An update payload (`TaskUpdate`): each field distinguishes absent
(`none`), explicitly null (`some none`) and supplied with a value
(`some (some v)`). -/
structure TaskUpdatePayload where
  title : Option (Option String)
  description : Option (Option String)
  deadline : Option (Option String)
  status : Option (Option String)
deriving Repr, DecidableEq

/-- Validation performed by the `TaskUpdate` pydantic model: a supplied
`title` value must have length 1..200 and a supplied `status` value must
match the status pattern. -/
def validTaskUpdate (p : TaskUpdatePayload) : Bool :=
  (match p.title with
   | some (some t) => 1 ≤ t.length && t.length ≤ 200
   | _ => true) &&
  (match p.status with
   | some (some s) => validStatus s
   | _ => true)

/-- The `$set` document built by `update_task`: the four optional task
fields plus the always-added `last_updated`. -/
structure UpdateDict where
  title : Option String
  description : Option String
  deadline : Option String
  status : Option String
  lastUpdated : Option String
deriving Repr, DecidableEq

/-- `{k: v for k, v in task_update.dict(exclude_unset=True).items() if v
is not None}`: a field survives exactly when it was supplied with a
non-null value. -/
def filteredUpdate (p : TaskUpdatePayload) : UpdateDict :=
  { title := p.title.bind id
    description := p.description.bind id
    deadline := p.deadline.bind id
    status := p.status.bind id
    lastUpdated := none }

/-- Replace every explicitly-null field of an update payload by an
absent one (used to state that the two are treated identically). -/
def stripNulls (p : TaskUpdatePayload) : TaskUpdatePayload :=
  { title := if p.title = some none then none else p.title
    description := if p.description = some none then none else p.description
    deadline := if p.deadline = some none then none else p.deadline
    status := if p.status = some none then none else p.status }

/-- `if not update_dict`: the dict holds no key. -/
def UpdateDict.isEmpty (u : UpdateDict) : Bool :=
  u.title.isNone && u.description.isNone && u.deadline.isNone &&
    u.status.isNone && u.lastUpdated.isNone

/-- Apply a `$set` document to one stored document: each present key
overwrites the field, everything else is untouched. -/
def applySet (d : TaskDoc) (u : UpdateDict) : TaskDoc :=
  { d with
    title := u.title.getD d.title
    description := (Option.map some u.description).getD d.description
    deadline := (Option.map some u.deadline).getD d.deadline
    status := u.status.getD d.status
    last_updated := u.lastUpdated.getD d.last_updated }

/-! ## Store primitives (the MongoDB driver calls) -/

/-- `find_one({"_id": o})`. -/
def find_one (store : Store) (o : Nat) : Option TaskDoc :=
  List.find? (fun d => d.oid == o) store

/-- `insert_one`: the new document is appended to the collection. -/
def insert_one (store : Store) (d : TaskDoc) : Store :=
  store ++ [d]

/-- `update_one({"_id": o}, {"$set": u})`: updates the matched document
and reports the matched count. -/
def update_one (store : Store) (o : Nat) (u : UpdateDict) : Store × Nat :=
  if List.any store (fun d => d.oid == o) then
    (List.map (fun d => if d.oid == o then applySet d u else d) store, 1)
  else (store, 0)

/-- `delete_one({"_id": o})`: removes the first matched document and
reports the deleted count. -/
def delete_one (store : Store) (o : Nat) : Store × Nat :=
  if List.any store (fun d => d.oid == o) then
    (List.eraseP (fun d => d.oid == o) store, 1)
  else (store, 0)

/-! ## Handlers -/

/-- `GET /tasks/{task_id}`. -/
def get_task (store : Store) (task_id : String) : Except ApiError TaskOut :=
  if isValidObjectId task_id then
    match find_one store (parseOid task_id) with
    | some t => Except.ok (task_helper t)
    | none => Except.error ApiError.notFound
  else Except.error ApiError.invalidId

/-- `POST /tasks`: the payload has already passed `TaskCreate`
validation; the store assigns the fresh id `newOid`; the document is
inserted with `created_at = last_updated = now` and read back. -/
def create_task (store : Store) (task : TaskCreate) (now : String)
    (newOid : Nat) : Store × Option TaskOut :=
  let task_dict : TaskDoc :=
    { oid := newOid
      title := task.title
      description := task.description
      deadline := task.deadline
      status := task.status
      created_at := now
      last_updated := now }
  let store2 := insert_one store task_dict
  (store2, Option.map task_helper (find_one store2 newOid))

/-- `PUT /tasks/{task_id}`: validates the id, filters the payload,
rejects an empty update, stamps `last_updated`, applies the `$set` and
reads the document back. -/
def update_task (store : Store) (task_id : String)
    (task_update : TaskUpdatePayload) (now : String) :
    Store × Except ApiError TaskOut :=
  if isValidObjectId task_id then
    let update_dict := filteredUpdate task_update
    if update_dict.isEmpty then
      (store, Except.error ApiError.noFields)
    else
      let update_dict2 := { update_dict with lastUpdated := some now }
      let o := parseOid task_id
      let res := update_one store o update_dict2
      if res.2 == 0 then (res.1, Except.error ApiError.notFound)
      else
        match find_one res.1 o with
        | some t => (res.1, Except.ok (task_helper t))
        | none => (res.1, Except.error ApiError.notFound)
  else (store, Except.error ApiError.invalidId)

/-- The body returned by a successful delete. -/
structure DeleteOut where
  message : String
  id : String
deriving Repr, DecidableEq

/-- `DELETE /tasks/{task_id}`. -/
def delete_task (store : Store) (task_id : String) :
    Store × Except ApiError DeleteOut :=
  if isValidObjectId task_id then
    let res := delete_one store (parseOid task_id)
    if res.2 == 0 then (res.1, Except.error ApiError.notFound)
    else (res.1, Except.ok { message := "Task deleted successfully", id := task_id })
  else (store, Except.error ApiError.invalidId)

/-! ## Lemmas about the hexadecimal id rendering -/

lemma hexDigitVal_hexDigitChar {d : Nat} (h : d < 16) :
    hexDigitVal (hexDigitChar d) = d := by
  interval_cases d <;> decide

lemma isHexChar_hexDigitChar {d : Nat} (h : d < 16) :
    isHexChar (hexDigitChar d) = true := by
  interval_cases d <;> decide

lemma toHexAux_length : ∀ w n acc, (toHexAux w n acc).length = w + acc.length := by
  intro w
  induction w with
  | zero => intro n acc; simp [toHexAux]
  | succ w ih =>
    intro n acc
    rw [toHexAux, ih]
    simp
    omega

lemma toHexAux_all_hex : ∀ w n acc, (∀ c ∈ acc, isHexChar c = true) →
    ∀ c ∈ toHexAux w n acc, isHexChar c = true := by
  intro w
  induction w with
  | zero => intro n acc h; exact h
  | succ w ih =>
    intro n acc h
    rw [toHexAux]
    apply ih
    intro c hc
    rcases List.mem_cons.mp hc with hc | hc
    · subst hc
      exact isHexChar_hexDigitChar (Nat.mod_lt _ (by norm_num))
    · exact h c hc

lemma foldl_toHexAux : ∀ w n a acc, n < 16 ^ w →
    List.foldl (fun a c => a * 16 + hexDigitVal c) a (toHexAux w n acc) =
      List.foldl (fun a c => a * 16 + hexDigitVal c) (a * 16 ^ w + n) acc := by
  intro w
  induction w with
  | zero =>
    intro n a acc h
    interval_cases n
    simp [toHexAux]
  | succ w ih =>
    intro n a acc h
    have hdiv : n / 16 < 16 ^ w := by
      rw [Nat.div_lt_iff_lt_mul (by norm_num)]
      calc n < 16 ^ (w + 1) := h
        _ = 16 ^ w * 16 := by rw [pow_succ]
    rw [toHexAux, ih (n / 16) a _ hdiv, List.foldl_cons,
      hexDigitVal_hexDigitChar (Nat.mod_lt _ (by norm_num))]
    have hd : 16 * (n / 16) + n % 16 = n := Nat.div_add_mod n 16
    have : (a * 16 ^ w + n / 16) * 16 + n % 16 = a * 16 ^ (w + 1) + n := by
      calc (a * 16 ^ w + n / 16) * 16 + n % 16
          = a * (16 ^ w * 16) + (16 * (n / 16) + n % 16) := by ring
        _ = a * 16 ^ (w + 1) + n := by rw [hd, pow_succ]
    rw [this]

lemma parseOid_oidToString {n : Nat} (h : n < 16 ^ 24) :
    parseOid (oidToString n) = n := by
  show List.foldl (fun a c => a * 16 + hexDigitVal c) 0 (toHexAux 24 n []) = n
  rw [foldl_toHexAux 24 n 0 [] h]
  simp

lemma isValidObjectId_oidToString (n : Nat) :
    isValidObjectId (oidToString n) = true := by
  show ((toHexAux 24 n []).length == 24 && (toHexAux 24 n []).all isHexChar) = true
  rw [Bool.and_eq_true, beq_iff_eq, toHexAux_length, List.all_eq_true]
  exact ⟨rfl, toHexAux_all_hex 24 n [] (by intro c hc; cases hc)⟩

/-! ## Lemmas about the store primitives -/

lemma find?_eq_none_of_all {l : List TaskDoc} {p : TaskDoc → Bool}
    (h : ∀ d ∈ l, p d = false) : List.find? p l = none := by
  induction l with
  | nil => rfl
  | cons a l ih =>
    rw [List.find?_cons_of_neg _ (by rw [h a (List.mem_cons_self a l)]; simp)]
    exact ih fun d hd => h d (List.mem_cons_of_mem a hd)

lemma find?_append_singleton {l : List TaskDoc} {p : TaskDoc → Bool} {x : TaskDoc}
    (h : ∀ d ∈ l, p d = false) (hx : p x = true) :
    List.find? p (l ++ [x]) = some x := by
  induction l with
  | nil => simp [List.find?_cons_of_pos _ hx]
  | cons a l ih =>
    rw [List.cons_append,
      List.find?_cons_of_neg _ (by rw [h a (List.mem_cons_self a l)]; simp)]
    exact ih fun d hd => h d (List.mem_cons_of_mem a hd)

lemma any_eq_false_of_all {l : List TaskDoc} {p : TaskDoc → Bool}
    (h : ∀ d ∈ l, p d = false) : List.any l p = false := by
  rw [Bool.eq_false_iff]
  intro hc
  obtain ⟨d, hd, hpd⟩ := List.any_eq_true.mp hc
  rw [h d hd] at hpd
  cases hpd

lemma find?_of_nodup {l : List TaskDoc} {d : TaskDoc}
    (hmem : d ∈ l) (hnd : List.Nodup (List.map TaskDoc.oid l)) :
    List.find? (fun x => x.oid == d.oid) l = some d := by
  induction l with
  | nil => cases hmem
  | cons a l ih =>
    rw [List.map_cons, List.nodup_cons] at hnd
    rcases List.mem_cons.mp hmem with rfl | hmem2
    · rw [List.find?_cons_of_pos _ (by simp)]
    · have ha : (a.oid == d.oid) = false := by
        rw [beq_eq_false_iff_ne]
        intro he
        exact hnd.1 (he ▸ List.mem_map_of_mem TaskDoc.oid hmem2)
      rw [List.find?_cons_of_neg _ (by rw [ha]; simp)]
      exact ih hmem2 hnd.2

lemma eraseP_no_match {o : Nat} : ∀ l : List TaskDoc,
    List.Nodup (List.map TaskDoc.oid l) →
    ∀ d ∈ List.eraseP (fun d => d.oid == o) l, (d.oid == o) = false := by
  intro l
  induction l with
  | nil => intro _ d hd; cases hd
  | cons a l ih =>
    intro hnd d hd
    rw [List.map_cons, List.nodup_cons] at hnd
    rw [List.eraseP_cons] at hd
    by_cases ha : (a.oid == o) = true
    · rw [ha] at hd
      simp only [cond_true, if_true] at hd
      rw [beq_eq_false_iff_ne]
      intro he
      exact hnd.1 ((beq_iff_eq.mp ha).symm ▸ he ▸ List.mem_map_of_mem TaskDoc.oid hd)
    · rw [Bool.not_eq_true] at ha
      rw [ha] at hd
      simp only [cond_false, Bool.false_eq_true, if_false] at hd
      rcases List.mem_cons.mp hd with rfl | hd2
      · exact ha
      · exact ih hnd.2 d hd2

/-! ## Reduction lemmas for the handlers -/

lemma validateCreate_spec {p : RawCreatePayload} {tc : TaskCreate}
    (h : validateCreate p = some tc) :
    tc.status = Option.getD p.status "not-done" ∧ validStatus tc.status = true := by
  cases hpt : p.title with
  | none =>
    simp only [validateCreate, hpt] at h
    exact Option.noConfusion h
  | some t =>
    simp only [validateCreate, hpt] at h
    split_ifs at h with h1 h2
    · cases Option.some.inj h
      exact ⟨rfl, h2⟩

lemma update_task_store_found (store : Store) (tid : String)
    (p : TaskUpdatePayload) (now : String)
    (hid : isValidObjectId tid = true)
    (hne : (filteredUpdate p).isEmpty = false)
    (hmem : List.any store (fun d => d.oid == parseOid tid) = true) :
    (update_task store tid p now).1 =
      List.map (fun d => if d.oid == parseOid tid
        then applySet d { filteredUpdate p with lastUpdated := some now }
        else d) store := by
  simp only [update_task, hid, if_true, hne, Bool.false_eq_true, if_false,
    update_one, hmem]
  cases hfo : find_one (List.map (fun d => if d.oid == parseOid tid
      then applySet d { filteredUpdate p with lastUpdated := some now }
      else d) store) (parseOid tid) with
  | none => simp [hfo]
  | some t => simp [hfo]

lemma update_task_not_found (store : Store) (tid : String)
    (p : TaskUpdatePayload) (now : String)
    (hid : isValidObjectId tid = true)
    (hne : (filteredUpdate p).isEmpty = false)
    (habs : List.any store (fun d => d.oid == parseOid tid) = false) :
    update_task store tid p now = (store, Except.error ApiError.notFound) := by
  simp [update_task, hid, hne, update_one, habs]

lemma delete_task_found (store : Store) (tid : String)
    (hid : isValidObjectId tid = true)
    (hmem : List.any store (fun d => d.oid == parseOid tid) = true) :
    delete_task store tid =
      (List.eraseP (fun d => d.oid == parseOid tid) store,
        Except.ok { message := "Task deleted successfully", id := tid }) := by
  simp [delete_task, hid, delete_one, hmem]

lemma delete_task_not_found (store : Store) (tid : String)
    (hid : isValidObjectId tid = true)
    (habs : List.any store (fun d => d.oid == parseOid tid) = false) :
    delete_task store tid = (store, Except.error ApiError.notFound) := by
  simp [delete_task, hid, delete_one, habs]

lemma create_task_eq (store : Store) (tc : TaskCreate) (now : String)
    (newOid : Nat) (hfresh : ∀ d ∈ store, d.oid ≠ newOid) :
    create_task store tc now newOid =
      (store ++ [{ oid := newOid, title := tc.title,
                   description := tc.description, deadline := tc.deadline,
                   status := tc.status, created_at := now,
                   last_updated := now }],
       some (task_helper { oid := newOid, title := tc.title,
                           description := tc.description,
                           deadline := tc.deadline, status := tc.status,
                           created_at := now, last_updated := now })) := by
  simp only [create_task, insert_one, find_one]
  rw [find?_append_singleton
    (fun d hd => by rw [beq_eq_false_iff_ne]; exact hfresh d hd) (by simp)]
  rfl

lemma update_task_store_cases (store : Store) (tid : String)
    (p : TaskUpdatePayload) (now : String) :
    (update_task store tid p now).1 = store ∨
    (update_task store tid p now).1 =
      List.map (fun d => if d.oid == parseOid tid
        then applySet d { filteredUpdate p with lastUpdated := some now }
        else d) store := by
  by_cases hid : isValidObjectId tid = true
  · by_cases hne : (filteredUpdate p).isEmpty = true
    · left
      simp [update_task, hid, hne]
    · by_cases hmem : (List.any store fun d => d.oid == parseOid tid) = true
      · right
        exact update_task_store_found store tid p now hid
          (Bool.eq_false_iff.mpr hne) hmem
      · left
        rw [update_task_not_found store tid p now hid
          (Bool.eq_false_iff.mpr hne) (Bool.eq_false_iff.mpr hmem)]
  · left
    simp [update_task, hid]

/-! ## Claims -/

/-- C1: For every valid creation payload, `create_task` returns a task whose
`created_at` equals its `last_updated` (both set to the clock reading at the
moment of insertion), whose status is the default `"not-done"` when the
payload omits `status`, and whose id is the string form of the freshly
store-assigned identifier, serialized with all seven fields. -/
theorem create_task_returns_fresh_task (store : Store) (p : RawCreatePayload)
    (tc : TaskCreate) (now : String) (newOid : Nat)
    (hval : validateCreate p = some tc)
    (hfresh : ∀ d ∈ store, d.oid ≠ newOid) :
    ∃ out : TaskOut, (create_task store tc now newOid).2 = some out ∧
      out.created_at = now ∧ out.last_updated = now ∧
      out.id = oidToString newOid ∧
      (p.status = none → out.status = "not-done") ∧
      out = { id := oidToString newOid, title := tc.title,
              description := tc.description, deadline := tc.deadline,
              status := tc.status, created_at := now,
              last_updated := now } := by
  rw [create_task_eq store tc now newOid hfresh]
  refine ⟨_, rfl, rfl, rfl, rfl, ?_, rfl⟩
  intro hs
  have h := (validateCreate_spec hval).1
  rw [hs] at h
  exact h

/-- Witness for C1 at a concrete payload and store. -/
theorem create_task_returns_fresh_task_witness :
    ∃ out : TaskOut,
      (create_task []
        { title := "Write report", description := none, deadline := none,
          status := "not-done" } "2024-01-01T00:00:00" 1).2 = some out ∧
      out.created_at = "2024-01-01T00:00:00" ∧
      out.last_updated = "2024-01-01T00:00:00" ∧
      out.id = oidToString 1 ∧
      ((RawCreatePayload.mk (some "Write report") none none none).status =
          none → out.status = "not-done") ∧
      out = { id := oidToString 1, title := "Write report",
              description := none, deadline := none, status := "not-done",
              created_at := "2024-01-01T00:00:00",
              last_updated := "2024-01-01T00:00:00" } :=
  create_task_returns_fresh_task []
    (RawCreatePayload.mk (some "Write report") none none none)
    { title := "Write report", description := none, deadline := none,
      status := "not-done" }
    "2024-01-01T00:00:00" 1 (by decide) (by intro d hd; cases hd)

/-- C2: For every update of an existing task, only the supplied fields plus
`last_updated` change in the stored document; every other field — including
`title`, `description`, `deadline` and `status` when unsupplied, and always
`created_at` and the id — retains its prior value, and every other document
is untouched. -/
theorem update_task_frame_effect (store : Store) (tid : String)
    (p : TaskUpdatePayload) (now : String)
    (hid : isValidObjectId tid = true)
    (hne : (filteredUpdate p).isEmpty = false)
    (hmem : (List.any store fun d => d.oid == parseOid tid) = true) :
    (update_task store tid p now).1 =
      List.map (fun d => if d.oid == parseOid tid then
        { oid := d.oid
          title := Option.getD (Option.bind p.title id) d.title
          description :=
            Option.getD (Option.map some (Option.bind p.description id))
              d.description
          deadline :=
            Option.getD (Option.map some (Option.bind p.deadline id))
              d.deadline
          status := Option.getD (Option.bind p.status id) d.status
          created_at := d.created_at
          last_updated := now }
        else d) store := by
  rw [update_task_store_found store tid p now hid hne hmem]
  congr 1

/-- Witness for C2: one stored task, an update supplying only the title. -/
theorem update_task_frame_effect_witness :
    (update_task
      [{ oid := parseOid "0123456789abcdef01234567", title := "Old",
         description := some "keep", deadline := none, status := "pending",
         created_at := "T0", last_updated := "T0" }]
      "0123456789abcdef01234567"
      { title := some (some "New"), description := none, deadline := none,
        status := none } "T1").1 =
      List.map (fun d =>
        if d.oid == parseOid "0123456789abcdef01234567" then
          { oid := d.oid
            title := Option.getD (Option.bind (some (some "New")) id) d.title
            description := Option.getD (Option.map some (Option.bind none id))
              d.description
            deadline := Option.getD (Option.map some (Option.bind none id))
              d.deadline
            status := Option.getD (Option.bind none id) d.status
            created_at := d.created_at
            last_updated := "T1" }
        else d)
        [{ oid := parseOid "0123456789abcdef01234567", title := "Old",
           description := some "keep", deadline := none, status := "pending",
           created_at := "T0", last_updated := "T0" }] :=
  update_task_frame_effect
    [{ oid := parseOid "0123456789abcdef01234567", title := "Old",
       description := some "keep", deadline := none, status := "pending",
       created_at := "T0", last_updated := "T0" }]
    "0123456789abcdef01234567"
    { title := some (some "New"), description := none, deadline := none,
      status := none } "T1" (by decide) (by decide) (by decide)

/-- C3: For every update payload in which zero recognized fields survive the
filter (absent and null fields dropped), `update_task` fails with the
"no fields to update" validation error (HTTP 400) and returns the store
unchanged: the failure precedes any store write. -/
theorem update_task_rejects_empty (store : Store) (tid : String)
    (p : TaskUpdatePayload) (now : String)
    (hid : isValidObjectId tid = true)
    (hempty : (filteredUpdate p).isEmpty = true) :
    update_task store tid p now = (store, Except.error ApiError.noFields) ∧
    ApiError.statusCode ApiError.noFields = 400 := by
  refine ⟨?_, rfl⟩
  simp [update_task, hid, hempty]

/-- Witness for C3: an update payload with a null title and nothing else. -/
theorem update_task_rejects_empty_witness :
    update_task
      [{ oid := 5, title := "A", description := none, deadline := none,
         status := "done", created_at := "T0", last_updated := "T0" }]
      "0123456789abcdef01234567"
      { title := some none, description := none, deadline := none,
        status := none } "T1" =
      ([{ oid := 5, title := "A", description := none, deadline := none,
          status := "done", created_at := "T0", last_updated := "T0" }],
        Except.error ApiError.noFields) ∧
    ApiError.statusCode ApiError.noFields = 400 :=
  update_task_rejects_empty
    [{ oid := 5, title := "A", description := none, deadline := none,
       status := "done", created_at := "T0", last_updated := "T0" }]
    "0123456789abcdef01234567"
    { title := some none, description := none, deadline := none,
      status := none } "T1" (by decide) (by decide)

lemma strip_bind (x : Option (Option String)) :
    Option.bind (if x = some none then none else x) id = Option.bind x id := by
  rcases x with _ | x2
  · rfl
  · rcases x2 with _ | v <;> simp

lemma filteredUpdate_stripNulls (p : TaskUpdatePayload) :
    filteredUpdate (stripNulls p) = filteredUpdate p := by
  unfold filteredUpdate stripNulls
  simp only [strip_bind]

lemma applySet_description_none {d : TaskDoc} {u : UpdateDict}
    (h : (applySet d u).description = none) : d.description = none := by
  simp only [applySet] at h
  cases hu : u.description with
  | none => rw [hu] at h; simpa using h
  | some v => rw [hu] at h; simp at h

lemma applySet_deadline_none {d : TaskDoc} {u : UpdateDict}
    (h : (applySet d u).deadline = none) : d.deadline = none := by
  simp only [applySet] at h
  cases hu : u.deadline with
  | none => rw [hu] at h; simpa using h
  | some v => rw [hu] at h; simp at h

/-- C4: A field explicitly supplied as null in an update payload is treated
identically to an omitted field — the whole request behaves exactly as if
the field were absent — and consequently no update can set `description` or
`deadline` of a stored task to null when it was not null before. -/
theorem update_null_equals_omitted (store : Store) (tid : String)
    (p : TaskUpdatePayload) (now : String) :
    update_task store tid p now = update_task store tid (stripNulls p) now ∧
    ∀ d2 ∈ (update_task store tid p now).1, ∃ d ∈ store, d.oid = d2.oid ∧
      (d2.description = none → d.description = none) ∧
      (d2.deadline = none → d.deadline = none) := by
  constructor
  · simp only [update_task, filteredUpdate_stripNulls]
  · intro d2 hd2
    rcases update_task_store_cases store tid p now with hc | hc
    · rw [hc] at hd2
      exact ⟨d2, hd2, rfl, fun h => h, fun h => h⟩
    · rw [hc] at hd2
      obtain ⟨d, hd, hde⟩ := List.mem_map.mp hd2
      by_cases h : (d.oid == parseOid tid) = true
      · rw [if_pos h] at hde
        subst hde
        exact ⟨d, hd, rfl, applySet_description_none, applySet_deadline_none⟩
      · rw [if_neg h] at hde
        subst hde
        exact ⟨d, hd, rfl, fun h => h, fun h => h⟩

/-- Witness for C4: an update payload whose `description` is explicitly
null behaves like one with `description` absent. -/
theorem update_null_equals_omitted_witness :
    update_task
      [{ oid := 7, title := "A", description := some "text",
         deadline := none, status := "done", created_at := "T0",
         last_updated := "T0" }] "x"
      { title := some (some "B"), description := some none,
        deadline := none, status := none } "T1" =
      update_task
        [{ oid := 7, title := "A", description := some "text",
           deadline := none, status := "done", created_at := "T0",
           last_updated := "T0" }] "x"
        (stripNulls
          { title := some (some "B"), description := some none,
            deadline := none, status := none }) "T1" ∧
    ∃ d ∈ [{ oid := 7, title := "A", description := some "text",
             deadline := none, status := "done", created_at := "T0",
             last_updated := "T0" : TaskDoc }],
      d.oid = ({ oid := 7, title := "A", description := some "text",
                 deadline := none, status := "done", created_at := "T0",
                 last_updated := "T0" : TaskDoc }).oid ∧
      (({ oid := 7, title := "A", description := some "text",
          deadline := none, status := "done", created_at := "T0",
          last_updated := "T0" : TaskDoc }).description = none →
        d.description = none) ∧
      (({ oid := 7, title := "A", description := some "text",
          deadline := none, status := "done", created_at := "T0",
          last_updated := "T0" : TaskDoc }).deadline = none →
        d.deadline = none) := by
  obtain ⟨h1, h2⟩ := update_null_equals_omitted
    [{ oid := 7, title := "A", description := some "text", deadline := none,
       status := "done", created_at := "T0", last_updated := "T0" }] "x"
    { title := some (some "B"), description := some none, deadline := none,
      status := none } "T1"
  exact ⟨h1, h2 _ (by decide)⟩

/-- C5: For every structurally valid identifier matching no stored task,
`get_task`, `update_task` (with a non-empty filtered payload) and
`delete_task` all fail with NotFound (404) and leave the store unchanged;
moreover on any store with unique ids that does contain the id, deleting
succeeds the first time and deleting again fails with NotFound. -/
theorem missing_id_not_found (store : Store) (tid : String)
    (p : TaskUpdatePayload) (now : String)
    (hid : isValidObjectId tid = true)
    (hne : (filteredUpdate p).isEmpty = false)
    (habs : ∀ d ∈ store, d.oid ≠ parseOid tid) :
    (get_task store tid = Except.error ApiError.notFound ∧
      update_task store tid p now = (store, Except.error ApiError.notFound) ∧
      delete_task store tid = (store, Except.error ApiError.notFound) ∧
      ApiError.statusCode ApiError.notFound = 404) ∧
    ∀ store2 : Store, List.Nodup (List.map TaskDoc.oid store2) →
      (List.any store2 fun d => d.oid == parseOid tid) = true →
        delete_task store2 tid =
          (List.eraseP (fun d => d.oid == parseOid tid) store2,
            Except.ok { message := "Task deleted successfully", id := tid }) ∧
        (delete_task (delete_task store2 tid).1 tid).2 =
          Except.error ApiError.notFound := by
  have hpfalse : ∀ d ∈ store, (d.oid == parseOid tid) = false :=
    fun d hd => beq_eq_false_iff_ne.mpr (habs d hd)
  have hany : (List.any store fun d => d.oid == parseOid tid) = false :=
    any_eq_false_of_all hpfalse
  have hfind : List.find? (fun d => d.oid == parseOid tid) store = none :=
    find?_eq_none_of_all hpfalse
  refine ⟨⟨?_, ?_, ?_, rfl⟩, ?_⟩
  · simp [get_task, hid, find_one, hfind]
  · exact update_task_not_found store tid p now hid hne hany
  · exact delete_task_not_found store tid hid hany
  · intro store2 hnd hmem2
    have hfirst := delete_task_found store2 tid hid hmem2
    refine ⟨hfirst, ?_⟩
    have h1 : (delete_task store2 tid).1 =
        List.eraseP (fun d => d.oid == parseOid tid) store2 := by
      rw [hfirst]
    have h2 : (List.any (List.eraseP (fun d => d.oid == parseOid tid) store2)
        fun d => d.oid == parseOid tid) = false :=
      any_eq_false_of_all (eraseP_no_match store2 hnd)
    rw [h1, delete_task_not_found _ _ hid h2]

/-- Witness for C5 at a concrete valid id, empty store and one-task store. -/
theorem missing_id_not_found_witness :
    (get_task [] "0123456789abcdef01234567" =
        Except.error ApiError.notFound ∧
      update_task [] "0123456789abcdef01234567"
        { title := some (some "x"), description := none, deadline := none,
          status := none } "T1" = ([], Except.error ApiError.notFound) ∧
      delete_task [] "0123456789abcdef01234567" =
        ([], Except.error ApiError.notFound) ∧
      ApiError.statusCode ApiError.notFound = 404) ∧
    delete_task
      [{ oid := parseOid "0123456789abcdef01234567", title := "A",
         description := none, deadline := none, status := "done",
         created_at := "T0", last_updated := "T0" }]
      "0123456789abcdef01234567" =
      (List.eraseP (fun d => d.oid == parseOid "0123456789abcdef01234567")
        [{ oid := parseOid "0123456789abcdef01234567", title := "A",
           description := none, deadline := none, status := "done",
           created_at := "T0", last_updated := "T0" }],
        Except.ok { message := "Task deleted successfully",
                    id := "0123456789abcdef01234567" }) ∧
    (delete_task
      (delete_task
        [{ oid := parseOid "0123456789abcdef01234567", title := "A",
           description := none, deadline := none, status := "done",
           created_at := "T0", last_updated := "T0" }]
        "0123456789abcdef01234567").1
      "0123456789abcdef01234567").2 = Except.error ApiError.notFound := by
  obtain ⟨hA, hB⟩ := missing_id_not_found [] "0123456789abcdef01234567"
    { title := some (some "x"), description := none, deadline := none,
      status := none } "T1" (by decide) (by decide) (by intro d hd; cases hd)
  obtain ⟨hB1, hB2⟩ := hB
    [{ oid := parseOid "0123456789abcdef01234567", title := "A",
       description := none, deadline := none, status := "done",
       created_at := "T0", last_updated := "T0" }] (by simp) (by decide)
  exact ⟨hA, hB1, hB2⟩

/-- C6: For every identifier string that is not structurally valid for the
ObjectId format, `get_task`, `update_task` and `delete_task` all fail with
the invalid-identifier error (HTTP 400), independently of the store, which
is returned unchanged: the check precedes any store access. -/
theorem invalid_id_rejected (store : Store) (tid : String)
    (p : TaskUpdatePayload) (now : String)
    (hid : isValidObjectId tid = false) :
    get_task store tid = Except.error ApiError.invalidId ∧
    update_task store tid p now = (store, Except.error ApiError.invalidId) ∧
    delete_task store tid = (store, Except.error ApiError.invalidId) ∧
    ApiError.statusCode ApiError.invalidId = 400 := by
  refine ⟨?_, ?_, ?_, rfl⟩ <;>
    simp [get_task, update_task, delete_task, hid]

/-- Witness for C6 at the malformed id `"not-a-valid-id"`. -/
theorem invalid_id_rejected_witness :
    get_task
      [{ oid := 3, title := "A", description := none, deadline := none,
         status := "done", created_at := "T0", last_updated := "T0" }]
      "not-a-valid-id" = Except.error ApiError.invalidId ∧
    update_task
      [{ oid := 3, title := "A", description := none, deadline := none,
         status := "done", created_at := "T0", last_updated := "T0" }]
      "not-a-valid-id"
      { title := some (some "B"), description := none, deadline := none,
        status := none } "T1" =
      ([{ oid := 3, title := "A", description := none, deadline := none,
          status := "done", created_at := "T0", last_updated := "T0" }],
        Except.error ApiError.invalidId) ∧
    delete_task
      [{ oid := 3, title := "A", description := none, deadline := none,
         status := "done", created_at := "T0", last_updated := "T0" }]
      "not-a-valid-id" =
      ([{ oid := 3, title := "A", description := none, deadline := none,
          status := "done", created_at := "T0", last_updated := "T0" }],
        Except.error ApiError.invalidId) ∧
    ApiError.statusCode ApiError.invalidId = 400 :=
  invalid_id_rejected
    [{ oid := 3, title := "A", description := none, deadline := none,
       status := "done", created_at := "T0", last_updated := "T0" }]
    "not-a-valid-id"
    { title := some (some "B"), description := none, deadline := none,
      status := none } "T1" (by decide)

lemma validTaskUpdate_status {q : TaskUpdatePayload} {v : String}
    (hq : validTaskUpdate q = true) (hs : q.status = some (some v)) :
    validStatus v = true := by
  unfold validTaskUpdate at hq
  rw [Bool.and_eq_true] at hq
  have h := hq.2
  simp only [hs] at h
  exact h

lemma create_task_fst (store : Store) (tc : TaskCreate) (now : String)
    (newOid : Nat) :
    (create_task store tc now newOid).1 =
      store ++ [{ oid := newOid, title := tc.title,
                  description := tc.description, deadline := tc.deadline,
                  status := tc.status, created_at := now,
                  last_updated := now }] := rfl

/-- C7: Every task document persisted by the create or the update path has a
status among the four enumerated values, because the creation validator only
accepts (or defaults) an enumerated status and the update validator only
accepts an enumerated supplied status. -/
theorem status_always_enumerated (store : Store) (tid now : String)
    (newOid : Nat) (p : RawCreatePayload) (tc : TaskCreate)
    (q : TaskUpdatePayload) :
    (validateCreate p = some tc → validStatus tc.status = true) ∧
    (validateCreate p = some tc →
      (∀ d ∈ store, validStatus d.status = true) →
      ∀ d2 ∈ (create_task store tc now newOid).1,
        validStatus d2.status = true) ∧
    (validTaskUpdate q = true →
      (∀ d ∈ store, validStatus d.status = true) →
      ∀ d2 ∈ (update_task store tid q now).1,
        validStatus d2.status = true) := by
  refine ⟨fun hval => (validateCreate_spec hval).2, ?_, ?_⟩
  · intro hval hstore d2 hd2
    rw [create_task_fst] at hd2
    rcases List.mem_append.mp hd2 with h | h
    · exact hstore d2 h
    · rw [List.mem_singleton.mp h]
      exact (validateCreate_spec hval).2
  · intro hq hstore d2 hd2
    rcases update_task_store_cases store tid q now with hc | hc
    · rw [hc] at hd2
      exact hstore d2 hd2
    · rw [hc] at hd2
      obtain ⟨d, hd, hde⟩ := List.mem_map.mp hd2
      by_cases h : (d.oid == parseOid tid) = true
      · rw [if_pos h] at hde
        subst hde
        show validStatus
          (Option.getD (Option.bind q.status id) d.status) = true
        cases hqs : q.status with
        | none => simpa using hstore d hd
        | some s2 =>
          cases s2 with
          | none => simpa using hstore d hd
          | some v => simpa using validTaskUpdate_status hq hqs
      · rw [if_neg h] at hde
        subst hde
        exact hstore d hd

/-- Witness for C7: a creation with status `"dropped"` and an update setting
status `"done"` on a one-task store. -/
theorem status_always_enumerated_witness :
    validStatus
      ({ title := "A", description := none, deadline := none,
         status := "dropped" : TaskCreate }).status = true ∧
    validStatus
      ({ oid := 2, title := "A", description := none, deadline := none,
         status := "dropped", created_at := "T1",
         last_updated := "T1" : TaskDoc }).status = true ∧
    validStatus
      ({ oid := parseOid "0123456789abcdef01234567", title := "B",
         description := none, deadline := none, status := "done",
         created_at := "T0", last_updated := "T1" : TaskDoc }).status =
      true := by
  obtain ⟨h1, h2, h3⟩ :=
    status_always_enumerated
      [{ oid := parseOid "0123456789abcdef01234567", title := "B",
         description := none, deadline := none, status := "pending",
         created_at := "T0", last_updated := "T0" }]
      "0123456789abcdef01234567" "T1" 2
      { title := some "A", description := none, deadline := none,
        status := some "dropped" }
      { title := "A", description := none, deadline := none,
        status := "dropped" }
      { title := none, description := none, deadline := none,
        status := some (some "done") }
  refine ⟨h1 (by decide), ?_, ?_⟩
  · exact h2 (by decide) (by decide) _ (by decide)
  · exact h3 (by decide) (by decide) _ (by decide)

/-- C8: `created_at ≤ last_updated` holds in every stored task: create sets
both fields to the same instant, and an update rewrites `last_updated` to the
current clock reading while never touching `created_at`, so the invariant is
preserved whenever the clock has not run backwards since the last write. -/
theorem created_le_updated (store : Store) (tid now : String)
    (newOid : Nat) (tc : TaskCreate) (q : TaskUpdatePayload)
    (hstore : ∀ d ∈ store, d.created_at ≤ d.last_updated) :
    (∀ d2 ∈ (create_task store tc now newOid).1,
      d2.created_at ≤ d2.last_updated) ∧
    ((∀ d ∈ store, d.last_updated ≤ now) →
      ∀ d2 ∈ (update_task store tid q now).1,
        d2.created_at ≤ d2.last_updated) := by
  constructor
  · intro d2 hd2
    rw [create_task_fst] at hd2
    rcases List.mem_append.mp hd2 with h | h
    · exact hstore d2 h
    · rw [List.mem_singleton.mp h]
  · intro hclock d2 hd2
    rcases update_task_store_cases store tid q now with hc | hc
    · rw [hc] at hd2
      exact hstore d2 hd2
    · rw [hc] at hd2
      obtain ⟨d, hd, hde⟩ := List.mem_map.mp hd2
      by_cases h : (d.oid == parseOid tid) = true
      · rw [if_pos h] at hde
        subst hde
        show d.created_at ≤ now
        exact le_trans (hstore d hd) (hclock d hd)
      · rw [if_neg h] at hde
        subst hde
        exact hstore d hd

/-- Witness for C8: the freshly created and the freshly updated document both
satisfy the invariant on a concrete one-task store. -/
theorem created_le_updated_witness :
    ({ oid := 2, title := "A", description := none, deadline := none,
       status := "not-done", created_at := "T0",
       last_updated := "T0" : TaskDoc }).created_at ≤
      ({ oid := 2, title := "A", description := none, deadline := none,
         status := "not-done", created_at := "T0",
         last_updated := "T0" : TaskDoc }).last_updated ∧
    ({ oid := parseOid "0123456789abcdef01234567", title := "B",
       description := none, deadline := none, status := "done",
       created_at := "T0", last_updated := "T0" : TaskDoc }).created_at ≤
      ({ oid := parseOid "0123456789abcdef01234567", title := "B",
         description := none, deadline := none, status := "done",
         created_at := "T0", last_updated := "T0" : TaskDoc }).last_updated := by
  obtain ⟨h1, h2⟩ :=
    created_le_updated
      [{ oid := parseOid "0123456789abcdef01234567", title := "B",
         description := none, deadline := none, status := "pending",
         created_at := "T0", last_updated := "T0" }]
      "0123456789abcdef01234567" "T0" 2
      { title := "A", description := none, deadline := none,
        status := "not-done" }
      { title := none, description := none, deadline := none,
        status := some (some "done") }
      (by intro d hd; rw [List.mem_singleton.mp hd])
  refine ⟨h1 _ (by decide), ?_⟩
  exact h2 (by intro d hd; rw [List.mem_singleton.mp hd])
    _ (by decide)

/-- C9: Creating a task and immediately fetching it by the id contained in
the creation response yields exactly the creation response. -/
theorem create_then_get_roundtrip (store : Store) (tc : TaskCreate)
    (now : String) (newOid : Nat)
    (hbound : newOid < 16 ^ 24)
    (hfresh : ∀ d ∈ store, d.oid ≠ newOid) :
    ∃ out : TaskOut, (create_task store tc now newOid).2 = some out ∧
      get_task (create_task store tc now newOid).1 out.id =
        Except.ok out := by
  rw [create_task_eq store tc now newOid hfresh]
  refine ⟨_, rfl, ?_⟩
  show get_task
      (store ++ [{ oid := newOid, title := tc.title,
                   description := tc.description, deadline := tc.deadline,
                   status := tc.status, created_at := now,
                   last_updated := now }])
      (oidToString newOid) =
    Except.ok (task_helper
      { oid := newOid, title := tc.title, description := tc.description,
        deadline := tc.deadline, status := tc.status, created_at := now,
        last_updated := now })
  unfold get_task find_one
  rw [if_pos (isValidObjectId_oidToString newOid),
    parseOid_oidToString hbound,
    find?_append_singleton
      (fun d hd => beq_eq_false_iff_ne.mpr (hfresh d hd)) (by simp)]

/-- Witness for C9 on the empty store with fresh id 1. -/
theorem create_then_get_roundtrip_witness :
    ∃ out : TaskOut,
      (create_task []
        { title := "Write report", description := none, deadline := none,
          status := "not-done" } "2024-01-01T00:00:00" 1).2 = some out ∧
      get_task
        (create_task []
          { title := "Write report", description := none, deadline := none,
            status := "not-done" } "2024-01-01T00:00:00" 1).1 out.id =
        Except.ok out :=
  create_then_get_roundtrip []
    { title := "Write report", description := none, deadline := none,
      status := "not-done" } "2024-01-01T00:00:00" 1
    (by norm_num) (by intro d hd; cases hd)

/-- C10: The id string that serialization gives every stored document is
itself structurally valid, and fetching with it returns that same document
serialized — ids handed out in responses always work as lookup keys. -/
theorem serialized_id_roundtrip (store : Store) (d : TaskDoc)
    (hmem : d ∈ store) (hbound : d.oid < 16 ^ 24)
    (hnd : List.Nodup (List.map TaskDoc.oid store)) :
    isValidObjectId (task_helper d).id = true ∧
    get_task store (task_helper d).id = Except.ok (task_helper d) := by
  constructor
  · exact isValidObjectId_oidToString d.oid
  · show get_task store (oidToString d.oid) = Except.ok (task_helper d)
    unfold get_task find_one
    rw [if_pos (isValidObjectId_oidToString d.oid),
      parseOid_oidToString hbound, find?_of_nodup hmem hnd]

/-- Witness for C10 on a one-task store with id 42. -/
theorem serialized_id_roundtrip_witness :
    isValidObjectId
      (task_helper
        { oid := 42, title := "A", description := none, deadline := none,
          status := "done", created_at := "T0",
          last_updated := "T0" }).id = true ∧
    get_task
      [{ oid := 42, title := "A", description := none, deadline := none,
         status := "done", created_at := "T0", last_updated := "T0" }]
      (task_helper
        { oid := 42, title := "A", description := none, deadline := none,
          status := "done", created_at := "T0",
          last_updated := "T0" }).id =
      Except.ok (task_helper
        { oid := 42, title := "A", description := none, deadline := none,
          status := "done", created_at := "T0", last_updated := "T0" }) :=
  serialized_id_roundtrip
    [{ oid := 42, title := "A", description := none, deadline := none,
       status := "done", created_at := "T0", last_updated := "T0" }]
    { oid := 42, title := "A", description := none, deadline := none,
      status := "done", created_at := "T0", last_updated := "T0" }
    (by decide) (by norm_num) (by simp)
